import Mathlib

/-!
Verification of the authentication core of the backend (src/backend/app):
password hashing (security.py: hash_password / verify_password), the JWT
token codec (create_access_token / create_refresh_token / verify_token),
the Redis-backed revocation store and rate limiter (security.py,
redis_client.py), and the register / login / refresh orchestration
(routers/auth.py).

External primitives (bcrypt, SHA-256, PyJWT's HMAC signature, the
`secrets` entropy source) are modelled as ideal primitives: digests are
deterministic and collision-free, signatures are unforgeable, and the
entropy source never repeats.  Time is a natural number of seconds; the
fast store's per-key expiry is an absolute deadline compared against the
current time, which mirrors Redis TTL semantics (a key set with `setex k
ttl v` at time `t` is visible while `now < t + ttl`).
-/

namespace AuthCore

/-- Equality of `Except` results is decidable when both components are,
letting concrete scenario outcomes be checked by evaluation. -/
instance exceptDecEq {ε α : Type} [DecidableEq ε] [DecidableEq α] :
    DecidableEq (Except ε α) := fun x y =>
  match x, y with
  | .ok a, .ok b =>
      if h : a = b then isTrue (by rw [h]) else isFalse (by simp [h])
  | .ok _, .error _ => isFalse (by simp)
  | .error _, .ok _ => isFalse (by simp)
  | .error e, .error f =>
      if h : e = f then isTrue (by rw [h]) else isFalse (by simp [h])

/-! ## Configuration constants (security.py lines 10-13) -/

def SECRET_KEY : String := "your-secret-key-change-in-production"

def ACCESS_TOKEN_EXPIRE_MINUTES : Nat := 15

def REFRESH_TOKEN_EXPIRE_DAYS : Nat := 7

/-- Seconds in the access-token lifetime: `timedelta(minutes=15).total_seconds()`. -/
def accessTokenExpireSeconds : Nat := ACCESS_TOKEN_EXPIRE_MINUTES * 60

/-- Seconds in the refresh-token lifetime: `timedelta(days=7).total_seconds()`. -/
def refreshTokenExpireSeconds : Nat := REFRESH_TOKEN_EXPIRE_DAYS * 24 * 60 * 60

/-! ## Credential hasher (security.py lines 16-31)

Modelled from the spec: the bcrypt library itself is outside src/.  §4.1
describes a self-salted one-way hash.  A well-formed bcrypt output string
embeds the salt and the digest of (password, salt); the digest is modelled
as ideal (collision-free), so two bcrypt strings are equal exactly when
their salts and hashed passwords are equal, and `checkpw` recomputes the
digest with the embedded salt and compares.  A string that is not a bcrypt
output makes `checkpw` raise, modelled as `Except.error`. -/

inductive BcryptStr where
  | hashoutput (salt : Nat) (pw : String)
  | malformed (s : String)
deriving DecidableEq, Repr

/-- Modelled from the spec: `bcrypt.gensalt()` draws a fresh random salt.
The entropy source is modelled as a counter, so consecutive draws are
distinct (ideal randomness, §4.1: fresh salt each call). -/
def bcrypt_gensalt (rng : Nat) : Nat × Nat := (rng, rng + 1)

/-- security.py `hash_password`: `bcrypt.hashpw(password, bcrypt.gensalt())`.
Returns the hash together with the advanced entropy source. -/
def hash_password (password : String) (rng : Nat) : BcryptStr × Nat :=
  let (salt, rng2) := bcrypt_gensalt rng
  (.hashoutput salt password, rng2)

/-- Modelled from the spec: `bcrypt.checkpw` recomputes the digest using the
salt embedded in the stored hash and compares; with an ideal digest this is
equality of the hashed passwords.  On a malformed hash it raises. -/
def bcrypt_checkpw (plain : String) (hashed : BcryptStr) : Except Unit Bool :=
  match hashed with
  | .hashoutput _ pw => .ok (decide (plain = pw))
  | .malformed _ => .error ()

/-- security.py `verify_password`: calls `bcrypt.checkpw` inside
`try ... except Exception: return False`. -/
def verify_password (plain_password : String) (hashed_password : BcryptStr) : Bool :=
  match bcrypt_checkpw plain_password hashed_password with
  | .ok b => b
  | .error _ => false

/-! ## Token codec (security.py lines 34-78)

Modelled from the spec: PyJWT's HS256 encode/decode is outside src/.  §4.2
describes a signed, expiring token.  A token string is either a signed
payload (the encoding is injective and the MAC unforgeable, so decoding
with the right key recovers exactly the payload, and any other string or
key fails) or garbage.  `jwt.decode` validates the `exp` claim: a token is
accepted only while `now < exp`. -/

structure JwtPayload where
  sub : Option String
  email : Option String
  exp : Nat
  tokenType : Option String
  jti : String
deriving DecidableEq, Repr

inductive TokenStr where
  | signed (payload : JwtPayload) (key : String)
  | garbage (s : String)
deriving DecidableEq, Repr

/-- Modelled from the spec: `jwt.decode(token, key, [HS256])` verifies the
signature and the `exp` claim, raising `PyJWTError` on any failure. -/
def jwtDecode (token : TokenStr) (key : String) (now : Nat) : Except Unit JwtPayload :=
  match token with
  | .signed p k => if k = key ∧ now < p.exp then .ok p else .error ()
  | .garbage _ => .error ()

/-- The `data` dict passed to token creation (`{"sub": ..., "email": ...}`
for access tokens, `{"sub": ...}` for refresh tokens). -/
structure JwtData where
  sub : Option String
  email : Option String
deriving DecidableEq, Repr

/-- Modelled from the spec: `secrets.token_urlsafe(32)` draws a fresh random
identifier; the entropy source is modelled as a counter so consecutive
draws are distinct (§4.2: sufficient entropy that tokens never collide). -/
def token_urlsafe (rng : Nat) : String × Nat := ("nonce" ++ toString rng, rng + 1)

/-- security.py `create_access_token`: copies `data`, adds
`exp = now + expires_delta` (default 15 minutes), `type = "access"` and the
supplied fresh `jti`, and signs with `SECRET_KEY`. -/
def create_access_token (data : JwtData) (now : Nat) (expires_delta : Option Nat)
    (jti : String) : TokenStr :=
  let expire := now + (expires_delta.getD accessTokenExpireSeconds)
  .signed { sub := data.sub, email := data.email, exp := expire,
            tokenType := some "access", jti := jti } SECRET_KEY

/-- security.py `create_refresh_token`: copies `data`, adds
`exp = now + expires_delta` (default 7 days), `type = "refresh"` and the
supplied fresh `jti`, and signs with `SECRET_KEY`. -/
def create_refresh_token (data : JwtData) (now : Nat) (expires_delta : Option Nat)
    (jti : String) : TokenStr :=
  let expire := now + (expires_delta.getD refreshTokenExpireSeconds)
  .signed { sub := data.sub, email := data.email, exp := expire,
            tokenType := some "refresh", jti := jti } SECRET_KEY

/-- security.py `verify_token`: decode, then reject when the `type` claim
differs from `expected_type`; any decode error yields `None`. -/
def verify_token (token : TokenStr) (now : Nat) (expected_type : String) :
    Option JwtPayload :=
  match jwtDecode token SECRET_KEY now with
  | .error _ => none
  | .ok payload =>
      if payload.tokenType ≠ some expected_type then none else some payload

/-- Injective rendering of a token string, standing for the raw character
string the Python code hashes and stores. -/
def encodeTokenStr : TokenStr → String
  | .signed p k =>
      "signed:" ++ (p.sub.getD "-") ++ ":" ++ (p.email.getD "-") ++ ":" ++
        toString p.exp ++ ":" ++ (p.tokenType.getD "-") ++ ":" ++ p.jti ++ ":" ++ k
  | .garbage s => "raw:" ++ s

/-- Modelled from the spec: `hashlib.sha256(...).hexdigest()` is a
deterministic digest, assumed collision-free (ideal hash), so it is
modelled as an injective tagging of the message. -/
def sha256hex (s : String) : String := "sha256:" ++ s

/-- security.py `generate_token_fingerprint`: SHA-256 of the raw token string. -/
def generate_token_fingerprint (token : TokenStr) : String :=
  sha256hex (encodeTokenStr token)

/-- security.py `generate_rate_limit_key`: `f"rate_limit:{endpoint}:{identifier}"`. -/
def generate_rate_limit_key (identifier : String) (endpoint : String) : String :=
  "rate_limit:" ++ (endpoint ++ ":" ++ identifier)

/-- Parse a run of decimal digits, accumulating the value; `none` as soon
as a non-digit appears. -/
def parseNatDigits : List Char → Nat → Option Nat
  | [], acc => some acc
  | c :: rest, acc =>
      if c.isDigit then parseNatDigits rest (acc * 10 + (c.toNat - 48))
      else none

/-- Modelled from the spec: Python's `int(s)` on a decimal string — an
optional minus sign followed by at least one digit; anything else raises
`ValueError`, modelled as `none`.  (Python also tolerates surrounding
whitespace and underscores between digits; the counter values the code
stores are plain digit strings, for which the behaviours coincide.) -/
def pyInt? (s : String) : Option Int :=
  match s.data with
  | [] => none
  | '-' :: rest =>
      match rest with
      | [] => none
      | _ => (parseNatDigits rest 0).map (fun n => -(n : Int))
  | cs => (parseNatDigits cs 0).map (fun n => (n : Int))

/-! ## Fast store (Redis) model

The raw `redis.asyncio` client as used by security.py: every operation may
raise (modelled by a `broken` connection flag making all calls fail) and
the client handle itself may be `None` (Redis not configured).  Keys map to
a value and an optional absolute expiry deadline. -/

structure RedisEntry where
  value : String
  expiresAt : Option Nat
deriving DecidableEq, Repr

structure Redis where
  broken : Bool
  data : String → Option RedisEntry

/-- A key is visible when present and not past its expiry deadline. -/
def Redis.live (r : Redis) (now : Nat) (k : String) : Option RedisEntry :=
  match r.data k with
  | some e =>
      match e.expiresAt with
      | some t => if now < t then some e else none
      | none => some e
  | none => none

/-- `GET k`: the live value, or an exception when the connection is broken. -/
def Redis.get (r : Redis) (now : Nat) (k : String) : Except Unit (Option String) :=
  if r.broken then .error ()
  else .ok ((r.live now k).map (fun e => e.value))

/-- `SETEX k seconds v`: set the value with expiry deadline `now + seconds`. -/
def Redis.setex (r : Redis) (now : Nat) (k : String) (seconds : Nat) (v : String) :
    Except Unit Redis :=
  if r.broken then .error ()
  else .ok { r with data := fun k2 =>
    if k2 = k then some { value := v, expiresAt := some (now + seconds) } else r.data k2 }

/-- `EXISTS k`: whether the key is live. -/
def Redis.existsKey (r : Redis) (now : Nat) (k : String) : Except Unit Bool :=
  if r.broken then .error () else .ok (r.live now k).isSome

/-- `DEL k`: remove the key.  The current time is taken for signature
uniformity with the other operations. -/
def Redis.del (r : Redis) (_now : Nat) (k : String) : Except Unit Redis :=
  if r.broken then .error ()
  else .ok { r with data := fun k2 => if k2 = k then none else r.data k2 }

/-- `INCR k`: increment an integer value keeping its TTL; create the key
with value 1 and no TTL when absent; raise on a non-integer value. -/
def Redis.incr (r : Redis) (now : Nat) (k : String) : Except Unit Redis :=
  if r.broken then .error ()
  else
    match r.live now k with
    | some e =>
        match pyInt? e.value with
        | some n =>
            .ok { r with data := fun k2 =>
              if k2 = k then some { value := toString (n + 1), expiresAt := e.expiresAt }
              else r.data k2 }
        | none => .error ()
    | none =>
        .ok { r with data := fun k2 =>
          if k2 = k then some { value := "1", expiresAt := none } else r.data k2 }

/-! ## Rate limiter and revocation store adapter (security.py lines 86-191) -/

/-- security.py `check_rate_limit`: fixed-window counter.  `None` client or
any raised exception allows the request (fail open); a fresh key is created
with value "1" and TTL `window_seconds`; an existing counter below
`max_attempts` is incremented without touching its TTL; at or above
`max_attempts` the request is denied. -/
def check_rate_limit (client : Option Redis) (now : Nat) (key : String)
    (max_attempts : Nat) (window_seconds : Nat) : Bool × Option Redis :=
  match client with
  | none => (true, none)
  | some r =>
      match r.get now key with
      | .error _ => (true, some r)
      | .ok none =>
          match r.setex now key window_seconds "1" with
          | .error _ => (true, some r)
          | .ok r2 => (true, some r2)
      | .ok (some current) =>
          match pyInt? current with
          | none => (true, some r)
          | some count =>
              if count ≥ (max_attempts : Int) then (false, some r)
              else
                match r.incr now key with
                | .error _ => (true, some r)
                | .ok r2 => (true, some r2)

/-- security.py key `f"refresh_token:{user_id}:{fingerprint}"`. -/
def refreshTokenKey (user_id : Int) (fingerprint : String) : String :=
  "refresh_token:" ++ (toString user_id ++ ":" ++ fingerprint)

/-- security.py `store_refresh_token_fingerprint`: `SETEX` the fingerprint
key; `None` client or any exception silently no-ops. -/
def store_refresh_token_fingerprint (client : Option Redis) (now : Nat)
    (user_id : Int) (fingerprint : String) (expires_in : Nat) : Option Redis :=
  match client with
  | none => none
  | some r =>
      match r.setex now (refreshTokenKey user_id fingerprint) expires_in "1" with
      | .error _ => some r
      | .ok r2 => some r2

/-- security.py `verify_refresh_token_fingerprint`: `EXISTS` on the
fingerprint key; `None` client or any exception returns `True` (fail open). -/
def verify_refresh_token_fingerprint (client : Option Redis) (now : Nat)
    (user_id : Int) (fingerprint : String) : Bool :=
  match client with
  | none => true
  | some r =>
      match r.existsKey now (refreshTokenKey user_id fingerprint) with
      | .error _ => true
      | .ok b => b

/-- security.py `revoke_refresh_token_fingerprint`: `DEL` the fingerprint
key; `None` client or any exception silently no-ops. -/
def revoke_refresh_token_fingerprint (client : Option Redis) (now : Nat)
    (user_id : Int) (fingerprint : String) : Option Redis :=
  match client with
  | none => none
  | some r =>
      match r.del now (refreshTokenKey user_id fingerprint) with
      | .error _ => some r
      | .ok r2 => some r2

/-- security.py key `f"blacklist:{jti}"` where `jti` is the SHA-256 of the
raw token. -/
def blacklistKey (token : TokenStr) : String :=
  "blacklist:" ++ sha256hex (encodeTokenStr token)

/-- security.py `blacklist_token`: `SETEX` the blacklist key; `None` client
or any exception silently no-ops. -/
def blacklist_token (client : Option Redis) (now : Nat) (token : TokenStr)
    (expires_in : Nat) : Option Redis :=
  match client with
  | none => none
  | some r =>
      match r.setex now (blacklistKey token) expires_in "1" with
      | .error _ => some r
      | .ok r2 => some r2

/-- security.py `is_token_blacklisted`: `EXISTS` on the blacklist key;
`None` client or any exception returns `False`. -/
def is_token_blacklisted (client : Option Redis) (now : Nat) (token : TokenStr) :
    Bool :=
  match client with
  | none => false
  | some r =>
      match r.existsKey now (blacklistKey token) with
      | .error _ => false
      | .ok b => b

/-! ## User store (models.py / spec §6 collaborator contract) -/

structure User where
  id : Int
  email : String
  hashed_password : BcryptStr
  is_active : Bool
deriving DecidableEq, Repr

structure Db where
  users : List User
  nextId : Int
deriving DecidableEq, Repr

/-- Modelled from the spec: `User.get_by_email` is referenced by
routers/auth.py and verify_implementation.py but its body is missing from
src/backend/app/models.py; spec §6 gives `findByEmail(email) -> User?`. -/
def get_by_email (db : Db) (email : String) : Option User :=
  db.users.find? (fun u => u.email = email)

/-- Modelled from the spec: `User.get_by_id` is referenced by
routers/auth.py but its body is missing from src/backend/app/models.py;
spec §6 gives `findById(id) -> User?`. -/
def get_by_id (db : Db) (user_id : Int) : Option User :=
  db.users.find? (fun u => u.id = user_id)

/-- Modelled from the spec: `User.create_user` is referenced by
routers/auth.py but its body is missing from src/backend/app/models.py;
spec §6 gives `create(email, passwordHash) -> User` which raises a
constraint-violation error on a duplicate email (the store's uniqueness
constraint, models.py `email = Column(String, unique=True, ...)`).  The
new user is active by default (`is_active` defaults to `True`). -/
def create_user (db : Db) (email : String) (hp : BcryptStr) :
    Except Unit (User × Db) :=
  if db.users.any (fun u => u.email = email) then .error ()
  else
    let u : User := { id := db.nextId, email := email, hashed_password := hp,
                      is_active := true }
    .ok (u, { users := db.users ++ [u], nextId := db.nextId + 1 })

/-! ## Auth orchestrator (routers/auth.py) -/

inductive AuthError where
  | RateLimited
  | DuplicateEmail
  | InvalidCredentials
  | AccountInactive
  | InvalidToken
  | RevokedToken
  | InternalError
deriving DecidableEq, Repr

/-- The token payload of a successful response (schemas.TokenResponse). -/
structure TokenPair where
  access_token : TokenStr
  refresh_token : TokenStr
  expires_in : Nat
  refresh_expires_in : Nat
deriving DecidableEq, Repr

/-- The state an auth request runs against: current time, the shared Redis
client handle (`redis_client.client`, `None` when Redis is unavailable),
the relational user store, and the process entropy source feeding
`bcrypt.gensalt` and `secrets.token_urlsafe`. -/
structure World where
  now : Nat
  client : Option Redis
  db : Db
  rng : Nat

/-- Issue the access/refresh pair and store the refresh fingerprint, as done
identically at the end of the register, login and refresh handlers
(auth.py lines 85-115, 169-201 and 274-308). -/
def issueTokens (w : World) (user : User) : TokenPair × World :=
  let j1 := token_urlsafe w.rng
  let access := create_access_token
    { sub := some (toString user.id), email := some user.email }
    w.now (some accessTokenExpireSeconds) j1.1
  let j2 := token_urlsafe j1.2
  let refreshTok := create_refresh_token
    { sub := some (toString user.id), email := none }
    w.now (some refreshTokenExpireSeconds) j2.1
  let fp := generate_token_fingerprint refreshTok
  let client2 := store_refresh_token_fingerprint w.client w.now user.id fp
    refreshTokenExpireSeconds
  (⟨access, refreshTok, accessTokenExpireSeconds, refreshTokenExpireSeconds⟩,
   { w with client := client2, rng := j2.2 })

/-- auth.py lines 74-83: the create step of register.  Any exception raised
by `User.create_user` — including the store's duplicate-email constraint
violation — is caught by `except Exception` and surfaced as the 500
`InternalError` ("Failed to create user"). -/
def register_createStep (db : Db) (email : String) (hp : BcryptStr) :
    Except AuthError (User × Db) :=
  match create_user db email hp with
  | .ok r => .ok r
  | .error _ => .error .InternalError

/-- auth.py `register`: rate limit (5 per 3600 s on
`rate_limit:register:{email}`), duplicate pre-check, hash, create, issue
tokens and store the refresh fingerprint. -/
def register (w : World) (email password : String) :
    Except AuthError TokenPair × World :=
  let key := generate_rate_limit_key email "register"
  let rl := check_rate_limit w.client w.now key 5 3600
  let w1 : World := { w with client := rl.2 }
  if rl.1 = false then (.error .RateLimited, w1)
  else
    match get_by_email w1.db email with
    | some _ => (.error .DuplicateEmail, w1)
    | none =>
        let hp := hash_password password w1.rng
        let w2 : World := { w1 with rng := hp.2 }
        match register_createStep w2.db email hp.1 with
        | .error e => (.error e, w2)
        | .ok (user, db2) =>
            let w3 : World := { w2 with db := db2 }
            let iss := issueTokens w3 user
            (.ok iss.1, iss.2)

/-- auth.py `login`: rate limit (10 per 600 s on
`rate_limit:login:{email}`), user lookup, password verification, active
check — exactly in that order — then token issuance. -/
def login (w : World) (email password : String) :
    Except AuthError TokenPair × World :=
  let key := generate_rate_limit_key email "login"
  let rl := check_rate_limit w.client w.now key 10 600
  let w1 : World := { w with client := rl.2 }
  if rl.1 = false then (.error .RateLimited, w1)
  else
    match get_by_email w1.db email with
    | none => (.error .InvalidCredentials, w1)
    | some user =>
        if verify_password password user.hashed_password = false then
          (.error .InvalidCredentials, w1)
        else if user.is_active = false then (.error .AccountInactive, w1)
        else
          let iss := issueTokens w1 user
          (.ok iss.1, iss.2)

/-- auth.py `refresh`: parse as a refresh-type token, extract and parse the
`sub` claim, check the fingerprint in Redis (absence → revoked), load the
user, check activity, then rotate: issue a new pair and store the new
fingerprint.  The old fingerprint is not deleted. -/
def refresh (w : World) (token : TokenStr) :
    Except AuthError TokenPair × World :=
  match verify_token token w.now "refresh" with
  | none => (.error .InvalidToken, w)
  | some payload =>
      match payload.sub with
      | none => (.error .InvalidToken, w)
      | some user_id_str =>
          match pyInt? user_id_str with
          | none => (.error .InvalidToken, w)
          | some user_id =>
              let fp := generate_token_fingerprint token
              if verify_refresh_token_fingerprint w.client w.now user_id fp
                  = false then
                (.error .RevokedToken, w)
              else
                match get_by_id w.db user_id with
                | none => (.error .InvalidToken, w)
                | some user =>
                    if user.is_active = false then (.error .AccountInactive, w)
                    else
                      let iss := issueTokens w user
                      (.ok iss.1, iss.2)

/-! ## Helper functions for stating frame properties -/

/-- The raw entry stored under a key, `none` when no client. -/
def redisData (client : Option Redis) (k : String) : Option RedisEntry :=
  match client with
  | none => none
  | some r => r.data k

/-! ## Theorems -/

/-- C7: a token issued with kind refresh parsed while expecting kind access
is invalid, and vice versa: the `type` claim check always rejects
cross-kind use. -/
theorem verify_token_rejects_cross_kind (data : JwtData) (now : Nat)
    (expires_delta : Option Nat) (jti : String) (now2 : Nat) :
    verify_token (create_refresh_token data now expires_delta jti) now2 "access"
      = none ∧
    verify_token (create_access_token data now expires_delta jti) now2 "refresh"
      = none := by
  constructor
  · simp only [verify_token, create_refresh_token, jwtDecode]
    by_cases h : now2 < now + expires_delta.getD refreshTokenExpireSeconds <;>
      simp [h]
  · simp only [verify_token, create_access_token, jwtDecode]
    by_cases h : now2 < now + expires_delta.getD accessTokenExpireSeconds <;>
      simp [h]

/-- C8: verification succeeds on the hash of the same password, fails on the
hash of a different password, and two successive hash calls produce
different hashes (fresh salt each call). -/
theorem password_hash_properties (P P2 : String) (rng rng2 : Nat)
    (hne : P ≠ P2) :
    verify_password P (hash_password P rng).1 = true ∧
    verify_password P (hash_password P2 rng2).1 = false ∧
    (hash_password P rng).1 ≠ (hash_password P (hash_password P rng).2).1 := by
  refine ⟨?_, ?_, ?_⟩
  · simp [verify_password, bcrypt_checkpw, hash_password, bcrypt_gensalt]
  · simp [verify_password, bcrypt_checkpw, hash_password, bcrypt_gensalt, hne]
  · simp [hash_password, bcrypt_gensalt]

/-- Witness for C8 at concrete passwords "alpha" and "beta". -/
theorem password_hash_properties_witness :
    verify_password "alpha" (hash_password "alpha" 0).1 = true ∧
    verify_password "alpha" (hash_password "beta" 3).1 = false ∧
    (hash_password "alpha" 0).1 ≠ (hash_password "alpha" (hash_password "alpha" 0).2).1 :=
  password_hash_properties "alpha" "beta" 0 3 (by decide)

/-- C9: `verify_password` is a total boolean function; a malformed hash
yields `false`, and more generally any internal `bcrypt.checkpw` error is
turned into `false` rather than propagated. -/
theorem verify_password_never_raises (pw s : String) (hs : BcryptStr) :
    verify_password pw (BcryptStr.malformed s) = false ∧
    (bcrypt_checkpw pw hs = .error () → verify_password pw hs = false) := by
  constructor
  · rfl
  · intro herr
    simp [verify_password, herr]

/-- Witness for C9 at a concrete malformed hash. -/
theorem verify_password_never_raises_witness :
    verify_password "pw" (BcryptStr.malformed "zz") = false ∧
    verify_password "pw" (BcryptStr.malformed "zz") = false :=
  ⟨(verify_password_never_raises "pw" "zz" (BcryptStr.malformed "zz")).1,
   (verify_password_never_raises "pw" "zz" (BcryptStr.malformed "zz")).2 rfl⟩

/-- A Redis state whose connection raises on every operation, used to
exercise the fail-open paths. -/
def brokenRedis : Redis := { broken := true, data := fun _ => none }

/-- C6: with no client or a client whose operations raise, the rate limiter
allows, fingerprint verification succeeds, and fingerprint store/revoke
silently no-op, leaving the state untouched. -/
theorem fast_store_fail_open (r : Redis) (hb : r.broken = true)
    (now : Nat) (k : String) (m wsec : Nat) (uid : Int) (fp : String)
    (ttl : Nat) :
    check_rate_limit none now k m wsec = (true, none) ∧
    check_rate_limit (some r) now k m wsec = (true, some r) ∧
    verify_refresh_token_fingerprint none now uid fp = true ∧
    verify_refresh_token_fingerprint (some r) now uid fp = true ∧
    store_refresh_token_fingerprint none now uid fp ttl = none ∧
    store_refresh_token_fingerprint (some r) now uid fp ttl = some r ∧
    revoke_refresh_token_fingerprint none now uid fp = none ∧
    revoke_refresh_token_fingerprint (some r) now uid fp = some r := by
  refine ⟨rfl, ?_, rfl, ?_, rfl, ?_, rfl, ?_⟩ <;>
    simp [check_rate_limit, verify_refresh_token_fingerprint,
      store_refresh_token_fingerprint, revoke_refresh_token_fingerprint,
      Redis.get, Redis.setex, Redis.existsKey, Redis.del, hb]

/-- Witness for C6 on a concrete broken client. -/
theorem fast_store_fail_open_witness :
    check_rate_limit none 0 "k" 5 60 = (true, none) ∧
    check_rate_limit (some brokenRedis) 0 "k" 5 60 = (true, some brokenRedis) ∧
    verify_refresh_token_fingerprint none 0 1 "fp" = true ∧
    verify_refresh_token_fingerprint (some brokenRedis) 0 1 "fp" = true ∧
    store_refresh_token_fingerprint none 0 1 "fp" 60 = none ∧
    store_refresh_token_fingerprint (some brokenRedis) 0 1 "fp" 60 = some brokenRedis ∧
    revoke_refresh_token_fingerprint none 0 1 "fp" = none ∧
    revoke_refresh_token_fingerprint (some brokenRedis) 0 1 "fp" = some brokenRedis :=
  fast_store_fail_open brokenRedis rfl 0 "k" 5 60 1 "fp" 60

/-- C4: login verifies the password before the active-status check.  For a
stored inactive user (with the rate limiter allowing the attempt), a wrong
password yields `InvalidCredentials` — the same error as for any wrong
password — and only the correct password reveals `AccountInactive`. -/
theorem login_checks_password_before_active (w : World) (email pw : String)
    (user : User)
    (hallow : (check_rate_limit w.client w.now
      (generate_rate_limit_key email "login") 10 600).1 = true)
    (hfind : get_by_email w.db email = some user)
    (hinactive : user.is_active = false) :
    (verify_password pw user.hashed_password = false →
      (login w email pw).1 = .error .InvalidCredentials) ∧
    (verify_password pw user.hashed_password = true →
      (login w email pw).1 = .error .AccountInactive) := by
  constructor <;> intro hv <;>
    simp [login, hallow, hfind, hv, hinactive]

/-- An inactive stored user for exercising the login order. -/
def inactiveUser : User :=
  { id := 1, email := "a@x.com", hashed_password := .hashoutput 0 "pw",
    is_active := false }

/-- A world holding only `inactiveUser`, with no Redis client configured. -/
def inactiveWorld : World :=
  { now := 0, client := none, db := { users := [inactiveUser], nextId := 2 },
    rng := 0 }

/-- Witness for C4: wrong password on the inactive account gives
`InvalidCredentials`, the correct one gives `AccountInactive`. -/
theorem login_checks_password_before_active_witness :
    (login inactiveWorld "a@x.com" "wrong").1 = .error .InvalidCredentials ∧
    (login inactiveWorld "a@x.com" "pw").1 = .error .AccountInactive :=
  ⟨(login_checks_password_before_active inactiveWorld "a@x.com" "wrong"
      inactiveUser rfl rfl rfl).1 (by decide),
   (login_checks_password_before_active inactiveWorld "a@x.com" "pw"
      inactiveUser rfl rfl rfl).2 (by decide)⟩

/-- Step fact: a call on a reachable store with no live counter allows the
request and creates the counter at "1" with expiry deadline `now + W`. -/
theorem check_rate_limit_fresh_key (r : Redis) (now : Nat) (k : String)
    (m W : Nat) (hb : r.broken = false) (hlive : r.live now k = none) :
    (check_rate_limit (some r) now k m W).1 = true ∧
    ∃ r2, (check_rate_limit (some r) now k m W).2 = some r2 ∧
      r2.broken = false ∧
      r2.data k = some { value := "1", expiresAt := some (now + W) } := by
  refine ⟨?_, ?_⟩
  · simp [check_rate_limit, Redis.get, Redis.setex, hb, hlive]
  · refine ⟨{ r with data := (fun k2 =>
        if k2 = k then some { value := "1", expiresAt := some (now + W) }
        else r.data k2) }, ?_, hb, ?_⟩
    · simp [check_rate_limit, Redis.get, Redis.setex, hb, hlive]
    · simp

/-- Step fact: a call on a reachable store whose live counter is below the
limit allows the request and increments the counter, keeping its expiry
deadline unchanged (the TTL is not reset). -/
theorem check_rate_limit_incr_step (r : Redis) (now : Nat) (k : String)
    (m W : Nat) (v v' : String) (c : Int) (t : Nat)
    (hb : r.broken = false)
    (hdata : r.data k = some { value := v, expiresAt := some t })
    (ht : now < t) (hv : pyInt? v = some c) (hc : c < (m : Int))
    (hv' : toString (c + 1) = v') :
    (check_rate_limit (some r) now k m W).1 = true ∧
    ∃ r2, (check_rate_limit (some r) now k m W).2 = some r2 ∧
      r2.broken = false ∧
      r2.data k = some { value := v', expiresAt := some t } := by
  have hlive : r.live now k = some { value := v, expiresAt := some t } := by
    simp [Redis.live, hdata, ht]
  refine ⟨?_, ?_⟩
  · simp [check_rate_limit, Redis.get, Redis.incr, hb, hlive, hv, hc.not_le]
  · refine ⟨{ r with data := (fun k2 =>
        if k2 = k then some { value := toString (c + 1), expiresAt := some t }
        else r.data k2) }, ?_, hb, ?_⟩
    · simp [check_rate_limit, Redis.get, Redis.incr, hb, hlive, hv, hc.not_le]
    · simp [hv']

/-- Step fact: a call on a reachable store whose live counter has reached
the limit denies the request and leaves the store unchanged. -/
theorem check_rate_limit_deny_step (r : Redis) (now : Nat) (k : String)
    (m W : Nat) (v : String) (c : Int) (t : Nat)
    (hb : r.broken = false)
    (hdata : r.data k = some { value := v, expiresAt := some t })
    (ht : now < t) (hv : pyInt? v = some c) (hc : (m : Int) ≤ c) :
    check_rate_limit (some r) now k m W = (false, some r) := by
  have hlive : r.live now k = some { value := v, expiresAt := some t } := by
    simp [Redis.live, hdata, ht]
  simp [check_rate_limit, Redis.get, hb, hlive, hv, hc]

/-- C5: on a reachable store and a fresh key, the first five
`checkAndConsume(k, 5, W)` calls allow and the sixth denies; the counter's
expiry deadline is the one set by the first call (`n1 + W`) and is never
reset by the later increments, even when they happen later inside the
window; once the window has elapsed the next call allows again. -/
theorem rate_limiter_fixed_window (r : Redis) (k : String) (W : Nat)
    (n1 n2 n3 n4 n5 n6 now2 : Nat)
    (hb : r.broken = false) (hfresh : r.live n1 k = none)
    (h2 : n2 < n1 + W) (h3 : n3 < n1 + W) (h4 : n4 < n1 + W)
    (h5 : n5 < n1 + W) (h6 : n6 < n1 + W) (h7 : n1 + W ≤ now2) :
    let s1 := check_rate_limit (some r) n1 k 5 W
    let s2 := check_rate_limit s1.2 n2 k 5 W
    let s3 := check_rate_limit s2.2 n3 k 5 W
    let s4 := check_rate_limit s3.2 n4 k 5 W
    let s5 := check_rate_limit s4.2 n5 k 5 W
    let s6 := check_rate_limit s5.2 n6 k 5 W
    s1.1 = true ∧ s2.1 = true ∧ s3.1 = true ∧ s4.1 = true ∧ s5.1 = true ∧
    s6.1 = false ∧
    redisData s6.2 k = some { value := "5", expiresAt := some (n1 + W) } ∧
    (check_rate_limit s6.2 now2 k 5 W).1 = true := by
  obtain ⟨hs1, r1, he1, hb1, hd1⟩ :=
    check_rate_limit_fresh_key r n1 k 5 W hb hfresh
  obtain ⟨hs2, r2, he2, hb2, hd2⟩ :=
    check_rate_limit_incr_step r1 n2 k 5 W "1" "2" 1 (n1 + W) hb1 hd1 h2
      (by decide) (by decide) (by decide)
  obtain ⟨hs3, r3, he3, hb3, hd3⟩ :=
    check_rate_limit_incr_step r2 n3 k 5 W "2" "3" 2 (n1 + W) hb2 hd2 h3
      (by decide) (by decide) (by decide)
  obtain ⟨hs4, r4, he4, hb4, hd4⟩ :=
    check_rate_limit_incr_step r3 n4 k 5 W "3" "4" 3 (n1 + W) hb3 hd3 h4
      (by decide) (by decide) (by decide)
  obtain ⟨hs5, r5, he5, hb5, hd5⟩ :=
    check_rate_limit_incr_step r4 n5 k 5 W "4" "5" 4 (n1 + W) hb4 hd4 h5
      (by decide) (by decide) (by decide)
  have hs6 : check_rate_limit (some r5) n6 k 5 W = (false, some r5) :=
    check_rate_limit_deny_step r5 n6 k 5 W "5" 5 (n1 + W) hb5 hd5 h6
      (by decide) (by decide)
  have hlive7 : r5.live now2 k = none := by
    simp [Redis.live, hd5, Nat.not_lt.mpr h7]
  obtain ⟨hs7, _, _, _, _⟩ :=
    check_rate_limit_fresh_key r5 now2 k 5 W hb5 hlive7
  refine ⟨hs1, ?_, ?_, ?_, ?_, ?_, ?_, ?_⟩
  · rw [he1]; exact hs2
  · rw [he1, he2]; exact hs3
  · rw [he1, he2, he3]; exact hs4
  · rw [he1, he2, he3, he4]; exact hs5
  · rw [he1, he2, he3, he4, he5, hs6]
  · rw [he1, he2, he3, he4, he5, hs6]; simp [redisData, hd5]
  · rw [he1, he2, he3, he4, he5, hs6]; exact hs7

/-- A reachable Redis state with no keys. -/
def emptyRedis : Redis := { broken := false, data := fun _ => none }

/-- The three key families of the fast store are disjoint: a rate-limit key
never equals a refresh-fingerprint key. -/
theorem rate_limit_key_ne_refresh_key (a b : String) :
    ("rate_limit:" ++ a) ≠ ("refresh_token:" ++ b) := by
  intro h
  have h2 := congrArg String.data h
  rw [String.data_append, String.data_append] at h2
  have e1 : "rate_limit:".data = ['r','a','t','e','_','l','i','m','i','t',':'] := rfl
  have e2 : "refresh_token:".data
      = ['r','e','f','r','e','s','h','_','t','o','k','e','n',':'] := rfl
  rw [e1, e2] at h2
  simp only [List.cons_append, List.cons.injEq] at h2
  exact absurd h2.2.1 (by decide)

/-- A blacklist key never equals a refresh-fingerprint key. -/
theorem blacklist_key_ne_refresh_key (a b : String) :
    ("blacklist:" ++ a) ≠ ("refresh_token:" ++ b) := by
  intro h
  have h2 := congrArg String.data h
  rw [String.data_append, String.data_append] at h2
  have e1 : "blacklist:".data = ['b','l','a','c','k','l','i','s','t',':'] := rfl
  have e2 : "refresh_token:".data
      = ['r','e','f','r','e','s','h','_','t','o','k','e','n',':'] := rfl
  rw [e1, e2] at h2
  simp only [List.cons_append, List.cons.injEq] at h2
  exact absurd h2.1 (by decide)

/-- Blacklisting a token does not disturb fingerprint verification: the
blacklist and refresh-fingerprint key families are disjoint. -/
theorem verify_fp_after_blacklist (c : Option Redis) (now now2 ttl : Nat)
    (t2 : TokenStr) (uid : Int) (fp : String) :
    verify_refresh_token_fingerprint (blacklist_token c now t2 ttl) now2 uid fp
      = verify_refresh_token_fingerprint c now2 uid fp := by
  cases c with
  | none => rfl
  | some r =>
      by_cases hb : r.broken = true
      · simp [blacklist_token, Redis.setex, hb]
      · simp only [Bool.not_eq_true] at hb
        have hk : refreshTokenKey uid fp ≠ blacklistKey t2 :=
          fun h => blacklist_key_ne_refresh_key
            (sha256hex (encodeTokenStr t2)) (toString uid ++ ":" ++ fp) h.symm
        simp [blacklist_token, Redis.setex, hb,
          verify_refresh_token_fingerprint, Redis.existsKey, Redis.live, hk]

/-- The outcome of refresh depends on the fast store only through the
fingerprint-existence check: two clients agreeing on every fingerprint
verification produce the same result under the same time, user store and
entropy. -/
theorem refresh_result_client_irrelevance (now : Nat) (c c' : Option Redis)
    (db : Db) (rng : Nat) (tok : TokenStr)
    (hfp : ∀ (uid : Int) (fp : String),
      verify_refresh_token_fingerprint c' now uid fp
        = verify_refresh_token_fingerprint c now uid fp) :
    (refresh { now := now, client := c', db := db, rng := rng } tok).1
      = (refresh { now := now, client := c, db := db, rng := rng } tok).1 := by
  simp only [refresh]
  rcases hv : verify_token tok now "refresh" with _ | payload
  · rfl
  · rcases hs : payload.sub with _ | sub_str
    · simp [hs]
    · rcases hi : pyInt? sub_str with _ | uid
      · simp [hs, hi]
      · simp only [hs, hi]
        rw [hfp uid (generate_token_fingerprint tok)]
        by_cases hv2 : verify_refresh_token_fingerprint c now uid
            (generate_token_fingerprint tok) = false
        · simp [hv2]
        · simp only [Bool.not_eq_false] at hv2
          rcases hu : get_by_id db uid with _ | user
          · simp [hv2, hu]
          · by_cases ha : user.is_active = false
            · simp [hv2, hu, ha]
            · simp only [Bool.not_eq_false] at ha
              simp [hv2, hu, ha, issueTokens]

/-- Storing a refresh fingerprint touches only its own key. -/
theorem store_refresh_fp_preserves_other_keys (c : Option Redis) (now : Nat)
    (uid : Int) (fp : String) (ttl : Nat) (k : String)
    (hk : k ≠ refreshTokenKey uid fp) :
    redisData (store_refresh_token_fingerprint c now uid fp ttl) k =
      redisData c k := by
  cases c with
  | none => rfl
  | some r =>
      by_cases hb : r.broken = true
      · simp [store_refresh_token_fingerprint, Redis.setex, hb, redisData]
      · simp only [Bool.not_eq_true] at hb
        simp [store_refresh_token_fingerprint, Redis.setex, hb, redisData, hk]

/-- C10: refresh performs no rate-limit check; whatever its outcome, every
rate-limit counter in the fast store is left exactly as it was. -/
theorem refresh_leaves_rate_limit_counters (w : World) (t : TokenStr)
    (identifier endpoint : String) :
    redisData ((refresh w t).2).client (generate_rate_limit_key identifier endpoint)
      = redisData w.client (generate_rate_limit_key identifier endpoint) := by
  have hk : ∀ (uid : Int) (fp : String),
      generate_rate_limit_key identifier endpoint ≠ refreshTokenKey uid fp :=
    fun uid fp => rate_limit_key_ne_refresh_key _ _
  simp only [refresh]
  rcases hv : verify_token t w.now "refresh" with _ | payload
  · rfl
  · rcases hs : payload.sub with _ | sub_str
    · simp [hs]
    · rcases hi : pyInt? sub_str with _ | uid
      · simp [hs, hi]
      · by_cases hfp : verify_refresh_token_fingerprint w.client w.now uid
            (generate_token_fingerprint t) = false
        · simp [hs, hi, hfp]
        · simp only [Bool.not_eq_false] at hfp
          rcases hu : get_by_id w.db uid with _ | user
          · simp [hs, hi, hfp, hu]
          · by_cases ha : user.is_active = false
            · simp [hs, hi, hfp, hu, ha]
            · simp only [Bool.not_eq_false] at ha
              simp only [hs, hi, hfp, hu, ha, issueTokens]
              simp only [Bool.true_eq_false, if_false, Bool.false_eq_true]
              exact store_refresh_fp_preserves_other_keys w.client w.now
                user.id _ refreshTokenExpireSeconds _ (hk _ _)

/-- C3 (amended): `blacklistToken` does put a live entry into the fast
store and `isBlacklisted` then answers true, but no auth operation
consults the blacklist: the outcome of refresh on any token is unchanged
by blacklisting — a blacklisted but otherwise valid token is still
accepted. -/
theorem blacklist_entry_not_consulted (r : Redis) (now now2 ttl : Nat)
    (t2 : TokenStr) (c : Option Redis) (db : Db) (rng : Nat) (tok : TokenStr)
    (hb : r.broken = false) (hlt : now2 < now + ttl) :
    is_token_blacklisted (blacklist_token (some r) now t2 ttl) now2 t2 = true ∧
    (refresh ⟨now2, blacklist_token c now t2 ttl, db, rng⟩ tok).1
      = (refresh ⟨now2, c, db, rng⟩ tok).1 := by
  constructor
  · simp [blacklist_token, Redis.setex, hb, is_token_blacklisted,
      Redis.existsKey, Redis.live, hlt]
  · exact refresh_result_client_irrelevance now2 c _ db rng tok
      (fun uid fp => verify_fp_after_blacklist c now now2 ttl t2 uid fp)

/-- An active stored user. -/
def activeUser : User :=
  { id := 1, email := "a@x.com", hashed_password := .hashoutput 0 "pw",
    is_active := true }

/-- A user store holding only `activeUser`. -/
def seededDb : Db := { users := [activeUser], nextId := 2 }

/-- A well-formed unexpired refresh token for `activeUser`. -/
def blTok : TokenStr :=
  .signed { sub := some "1", email := none, exp := 604800,
            tokenType := some "refresh", jti := "jtiX" } SECRET_KEY

/-- Fast-store state after storing `blTok`'s fingerprint and then
blacklisting `blTok`. -/
def blClient : Option Redis :=
  blacklist_token
    (store_refresh_token_fingerprint (some emptyRedis) 0 1
      (generate_token_fingerprint blTok) 604800)
    0 blTok 604800

/-- World in which `blTok` is fingerprinted, blacklisted, and its user
active. -/
def blWorld : World :=
  { now := 0, client := blClient, db := seededDb, rng := 0 }

/-- Counterexample to C3: `blTok` is blacklisted (its blacklist entry is in
the fast store and `isBlacklisted` returns true) and otherwise fully valid,
yet refresh accepts it. -/
theorem blacklisted_token_still_accepted :
    is_token_blacklisted blClient 0 blTok = true ∧
    (refresh blWorld blTok).1.isOk = true := by decide

/-- Witness for the amended C3 on concrete inputs. -/
theorem blacklist_entry_not_consulted_witness :
    is_token_blacklisted (blacklist_token (some emptyRedis) 0 blTok 604800)
      0 blTok = true ∧
    (refresh ⟨0, blacklist_token (some emptyRedis) 0 blTok 604800,
        seededDb, 0⟩ blTok).1
      = (refresh ⟨0, some emptyRedis, seededDb, 0⟩ blTok).1 :=
  blacklist_entry_not_consulted emptyRedis 0 0 604800 blTok
    (some emptyRedis) seededDb 0 blTok rfl (by decide)

/-- Witness for C5 on a concrete empty store, key "k" and a 10-second
window, all six calls at time 0 and a final call at time 10. -/
theorem rate_limiter_fixed_window_witness :
    let s1 := check_rate_limit (some emptyRedis) 0 "k" 5 10
    let s2 := check_rate_limit s1.2 0 "k" 5 10
    let s3 := check_rate_limit s2.2 0 "k" 5 10
    let s4 := check_rate_limit s3.2 0 "k" 5 10
    let s5 := check_rate_limit s4.2 0 "k" 5 10
    let s6 := check_rate_limit s5.2 0 "k" 5 10
    s1.1 = true ∧ s2.1 = true ∧ s3.1 = true ∧ s4.1 = true ∧ s5.1 = true ∧
    s6.1 = false ∧
    redisData s6.2 "k" = some { value := "5", expiresAt := some 10 } ∧
    (check_rate_limit s6.2 10 "k" 5 10).1 = true :=
  rate_limiter_fixed_window emptyRedis "k" 10 0 0 0 0 0 0 10 rfl rfl
    (by decide) (by decide) (by decide) (by decide) (by decide) (by decide)

/-- Counterexample to C2: with `activeUser`'s email already committed by a
concurrent winner, the store's create raises its uniqueness-constraint
error, and Register's create step classifies it as `InternalError`, not
`DuplicateEmail`. -/
theorem register_create_conflict_is_internal_error :
    create_user seededDb "a@x.com" (.hashoutput 9 "pw2") = .error () ∧
    register_createStep seededDb "a@x.com" (.hashoutput 9 "pw2")
      = .error .InternalError ∧
    register_createStep seededDb "a@x.com" (.hashoutput 9 "pw2")
      ≠ .error .DuplicateEmail := by decide

/-- C2 (amended): a duplicate email found by the pre-create lookup yields
`DuplicateEmail` (with no tokens issued), while a uniqueness-constraint
error raised by the store at the create step — the concurrent-registration
race — is caught by the blanket exception handler and yields
`InternalError`, not `DuplicateEmail`. -/
theorem register_duplicate_email_handling (w : World) (email pw : String)
    (u : User) (db : Db) (hp : BcryptStr)
    (hallow : (check_rate_limit w.client w.now
      (generate_rate_limit_key email "register") 5 3600).1 = true)
    (hfind : get_by_email w.db email = some u)
    (hconf : create_user db email hp = .error ()) :
    (register w email pw).1 = .error .DuplicateEmail ∧
    register_createStep db email hp = .error .InternalError := by
  constructor
  · simp [register, hallow, hfind]
  · simp [register_createStep, hconf]

/-- Witness for the amended C2 on concrete inputs. -/
theorem register_duplicate_email_handling_witness :
    (register ⟨0, none, seededDb, 0⟩ "a@x.com" "pw2").1
      = .error .DuplicateEmail ∧
    register_createStep seededDb "a@x.com" (.hashoutput 9 "pw2")
      = .error .InternalError :=
  register_duplicate_email_handling ⟨0, none, seededDb, 0⟩ "a@x.com" "pw2"
    activeUser seededDb (.hashoutput 9 "pw2") rfl (by decide) (by decide)

/-- The token pair inside a successful response (fallback pair on error,
used only to chain concrete scenario runs). -/
def extractPair : Except AuthError TokenPair -> TokenPair
  | .ok p => p
  | .error _ =>
      { access_token := .garbage "", refresh_token := .garbage "",
        expires_in := 0, refresh_expires_in := 0 }

/-- Scenario start for the rotation check: `activeUser` stored, empty
reachable fast store. -/
def scenarioW0 : World :=
  { now := 0, client := some emptyRedis, db := seededDb, rng := 0 }

/-- Step 1 of the scenario: login. -/
def scenarioLogin : Except AuthError TokenPair × World :=
  login scenarioW0 "a@x.com" "pw"

/-- The FIRST (pre-rotation) refresh token, from the login response. -/
def scenarioTok1 : TokenStr := (extractPair scenarioLogin.1).refresh_token

/-- Step 2 of the scenario: first refresh, which rotates the tokens. -/
def scenarioRefresh1 : Except AuthError TokenPair × World :=
  refresh scenarioLogin.2 scenarioTok1

/-- The SECOND (newest) refresh token, from the first refresh response. -/
def scenarioTok2 : TokenStr := (extractPair scenarioRefresh1.1).refresh_token

/-- C1 evaluated on the code: after login and one refresh, a second refresh
with the FIRST refresh token does NOT fail as `RevokedToken` — it succeeds,
because rotation stores the new fingerprint without deleting the old one
(auth.py line 287's comment announces invalidation of the old fingerprint
but no deletion follows).  The refresh with the SECOND token succeeds as
the claim states. -/
theorem refresh_with_prerotation_token_succeeds :
    scenarioLogin.1.isOk = true ∧
    scenarioRefresh1.1.isOk = true ∧
    (refresh scenarioRefresh1.2 scenarioTok1).1 ≠ .error .RevokedToken ∧
    (refresh scenarioRefresh1.2 scenarioTok1).1.isOk = true ∧
    (refresh scenarioRefresh1.2 scenarioTok2).1.isOk = true := by decide

end AuthCore
